import Mathlib

/-!
# Verification of the interactive selection subsystem

Shallow embedding of the repository's selection core:

* `BoundingBoxManager` (bounding-volume registry) — file `src/unnamed/part_000`
* `Select` (selection controller) — file `src/unnamed/part_001`

Modelling conventions:

* JavaScript `Set<string>` is modelled as an insertion-ordered duplicate-free
  `List String` (`Set.has` = membership, `Set.add` = append-if-absent,
  `Set.delete` = erase); the code's own guards maintain freedom from
  duplicates.
* Three.js meshes are mutable objects aliased by the registry's map, its
  mesh list and the scene.  We model this aliasing with an explicit mesh
  store (`Registry.store`, keyed by a numeric mesh id); `meshMap`,
  `meshList` and `scene` hold mesh ids.
* `null`/`undefined` entity-id results are both modelled as `none`;
  JavaScript truthiness of a string is `≠ ""`.
* The numeric mesh transform of `createBoundingBox` (scale, degree→radian
  rotation, rotated local-centre offset, lines 83–112 of part_000) is
  floating-point library geometry that no claim references; it is
  abstracted as the entity's resulting world axis-aligned bounding box
  (`Entity.worldBox`), the box that `THREE.Box3().setFromObject(mesh)`
  later reads back.  Box coordinates are integers; only comparisons occur.
* Three.js `Object3D` constructs meshes with `visible = true`;
  `createBoundingBox` never assigns `mesh.visible`, so a fresh mesh's
  visibility flag is `true` (its *material* is the shared `default`
  material, which has `visible: false` and opacity 0, i.e. it renders
  invisible).
-/

/-- Visual style material applied to a bounding-box mesh; the registry owns
three shared materials (part_000, lines 35–60). -/
inductive Material where
  | default
  | selected
  | hover
deriving DecidableEq, Repr

/-- `visible` property of the three shared materials: the default material is
created with `visible: false, opacity: 0.0`; the selected and hover
materials with `visible: true` (part_000, lines 36–59). -/
def Material.materialVisible : Material → Bool
  | Material.default => false
  | Material.selected => true
  | Material.hover => true

structure Vec3 where
  x : Int
  y : Int
  z : Int
deriving DecidableEq, Repr

/-- `THREE.Box3`: an axis-aligned box given by min/max corners. -/
structure Box3 where
  min : Vec3
  max : Vec3
deriving DecidableEq, Repr

/-- `THREE.Box3.prototype.containsBox(box)`: every coordinate interval of
`b` lies inside the corresponding interval of `a`. -/
def containsBox (a b : Box3) : Bool :=
  a.min.x ≤ b.min.x && b.max.x ≤ a.max.x &&
  a.min.y ≤ b.min.y && b.max.y ≤ a.max.y &&
  a.min.z ≤ b.min.z && b.max.z ≤ a.max.z

/-- `THREE.Box3.prototype.intersectsBox(box)`: the boxes overlap on every
axis. -/
def intersectsBox (a b : Box3) : Bool :=
  !(b.max.x < a.min.x || a.max.x < b.min.x) &&
  !(b.max.y < a.min.y || a.max.y < b.min.y) &&
  !(b.max.z < a.min.z || a.max.z < b.min.z)

/-- Entity record handed to `createBoundingBox` (part_001 typedef): a stable
uuid plus (abstracted, see file header) the world AABB the mesh transform
produces. -/
structure Entity where
  uuid : String
  worldBox : Box3
deriving DecidableEq, Repr

/-- `BoundingBoxDef` (part_000 typedef): width/height and local centre
offset, consumed by the abstracted transform. -/
structure BoundingBoxDef where
  width : Int
  height : Int
  x : Int
  y : Int
deriving DecidableEq, Repr

/-- One bounding-box mesh (`THREE.Mesh`): owning entity uuid
(`mesh.userData.entityUUID`), current material, its own `visible` flag and
world AABB. -/
structure MeshData where
  entityUUID : String
  material : Material
  visible : Bool
  box : Box3
deriving DecidableEq, Repr

/-- State of a `BoundingBoxManager` (part_000).  `store` is the mesh heap
(ids are allocation order); `meshMap` models the `Map` from entity uuid to
mesh, `meshList` the `boundingBoxMeshList` array, `scene` the set of meshes
added to the scene. -/
structure Registry where
  nextId : Nat
  store : List (Nat × MeshData)
  meshMap : List (String × Nat)
  meshList : List Nat
  scene : List Nat
deriving DecidableEq, Repr

def emptyRegistry : Registry := ⟨0, [], [], [], []⟩

/-- Dereference a mesh id in the store. -/
def storeGet (r : Registry) (mid : Nat) : Option MeshData :=
  r.store.lookup mid

/-- Mutate the mesh with id `mid` in place (all aliases observe the update). -/
def storeUpdate (r : Registry) (mid : Nat) (f : MeshData → MeshData) : Registry :=
  { r with store := r.store.map (fun p => if p.1 = mid then (p.1, f p.2) else p) }

/-- JavaScript `Map.set`: replace the value if the key is present (keeping
its position), else append a new binding. -/
def mapSet (m : List (String × Nat)) (k : String) (v : Nat) : List (String × Nat) :=
  if (m.lookup k).isSome then m.map (fun p => if p.1 = k then (p.1, v) else p)
  else m ++ [(k, v)]

/-- `BoundingBoxManager.createBoundingBox(entity, boundingBoxDef)`
(part_000, lines 73–126).  Fails (returns `none`) when the bounding
definition or the entity is missing or the entity uuid is empty/falsy.
Otherwise allocates a fresh mesh carrying the default material — the mesh's
own `visible` flag is `true`, the `THREE.Object3D` constructor default,
never overridden here — registers it in the map, pushes it onto
`boundingBoxMeshList` and adds it to the scene. -/
def createBoundingBox (r : Registry) (entity : Option Entity)
    (boundingBoxDef : Option BoundingBoxDef) : Registry × Option Nat :=
  match boundingBoxDef, entity with
  | some _, some e =>
    if e.uuid = "" then (r, none)
    else
      let mid := r.nextId
      let mesh : MeshData :=
        { entityUUID := e.uuid, material := Material.default,
          visible := true, box := e.worldBox }
      ({ r with
          nextId := mid + 1,
          store := r.store ++ [(mid, mesh)],
          meshMap := mapSet r.meshMap e.uuid mid,
          meshList := r.meshList ++ [mid],
          scene := r.scene ++ [mid] }, some mid)
  | _, _ => (r, none)

/-- The branch body of `setVisualState` (part_000, lines 137–147): selected
wins over hovered; the default branch hides the mesh. -/
def applyVisual (m : MeshData) (sel hov : Bool) : MeshData :=
  if sel then { m with material := Material.selected, visible := true }
  else if hov then { m with material := Material.hover, visible := true }
  else { m with material := Material.default, visible := false }

/-- `BoundingBoxManager.setVisualState(entityUUID, state)` (part_000,
lines 133–151): silently does nothing when the uuid has no mesh. -/
def setVisualState (r : Registry) (entityUUID : String) (sel hov : Bool) : Registry :=
  match r.meshMap.lookup entityUUID with
  | none => r
  | some mid => storeUpdate r mid (fun m => applyVisual m sel hov)

/-- Joint state of a `Select` controller (part_001, lines 26–59) and its
`boundingBoxManager`.  `selectedEntities` is the controller's `Set` of
selected uuids, insertion-ordered; `hoveredEntityUUID` the current hover;
`isMouseDown`/`isDragging` the pending-interaction flags. -/
structure Sys where
  reg : Registry
  selectedEntities : List String
  hoveredEntityUUID : Option String
  isMouseDown : Bool
  isDragging : Bool
deriving DecidableEq, Repr

/-- Notification payloads: the code always passes a freshly constructed
`new Set(...)` snapshot (`Payload.copy`); `Payload.live` would model
handing out the controller's own live set, which this code never does. -/
inductive Payload where
  | live
  | copy (snapshot : List String)
deriving DecidableEq, Repr

/-- One `this.trigger(name, payload)` call. -/
structure EmitEvent where
  name : String
  payload : Payload
deriving DecidableEq, Repr

/-- `Select.select(entityUUID)` (part_001, lines 250–255): returns early on
an empty/falsy uuid or an already-selected uuid; otherwise adds the uuid to
the selection set and restyles the volume Selected.  Note: no registration
check — `setVisualState` is the only part that silently no-ops for an
unregistered uuid. -/
def Select.select (s : Sys) (entityUUID : String) : Sys :=
  if entityUUID = "" ∨ entityUUID ∈ s.selectedEntities then s
  else
    { s with
        selectedEntities := s.selectedEntities ++ [entityUUID],
        reg := setVisualState s.reg entityUUID true false }

/-- `Select.deselect(entityUUID)` (part_001, lines 261–268): returns early
on an empty/falsy uuid or a not-selected uuid; otherwise removes the uuid
and restyles according to whether it is currently hovered. -/
def Select.deselect (s : Sys) (entityUUID : String) : Sys :=
  if entityUUID = "" ∨ entityUUID ∉ s.selectedEntities then s
  else
    let isHovered := s.hoveredEntityUUID = some entityUUID
    { s with
        selectedEntities := s.selectedEntities.erase entityUUID,
        reg := setVisualState s.reg entityUUID false (decide isHovered) }

/-- `Select.deselectAll()` (part_001, lines 271–275): iterates a copy of the
selection set, deselecting each member. -/
def Select.deselectAll (s : Sys) : Sys :=
  let currentSelection := s.selectedEntities
  currentSelection.foldl Select.deselect s

/-- `Select.selectAll()` (part_001, lines 278–286): walks
`boundingBoxManager.boundingBoxMeshList` and selects every mesh's
(truthy) entity uuid.  The list and the uuids are loop-invariant —
`select` only restyles and grows the selection set — so they are read
from the initial state. -/
def Select.selectAll (s : Sys) : Sys :=
  s.reg.meshList.foldl
    (fun acc mid =>
      match storeGet s.reg mid with
      | none => acc
      | some mesh =>
        if mesh.entityUUID ≠ "" then Select.select acc mesh.entityUUID else acc)
    s

/-- `Select.isSelected(entityUUID)` (part_001, lines 293–295). -/
def Select.isSelected (s : Sys) (entityUUID : String) : Bool :=
  decide (entityUUID ∈ s.selectedEntities)

/-- `Select._performSingleClickSelection(clickedUUID, isMultiSelect)`
(part_001, lines 187–207).  With the modifier: toggle.  Without: snapshot
the previous selection, deselect everything, then re-select the clicked
uuid unless it was the only selected entity. -/
def performSingleClickSelection (s : Sys) (clickedUUID : String)
    (isMultiSelect : Bool) : Sys :=
  let isSel := clickedUUID ∈ s.selectedEntities
  if isMultiSelect then
    if isSel then Select.deselect s clickedUUID else Select.select s clickedUUID
  else
    let previouslySelected := s.selectedEntities
    let s1 := Select.deselectAll s
    if ¬(previouslySelected.length = 1 ∧ isSel) then Select.select s1 clickedUUID
    else s1

/-- The candidate-collection loop of `_performBoxSelection` (part_001,
lines 219–234): iterate `boundingBoxMeshList`; skip meshes whose `visible`
flag is off (the `!this.materials?.default?.visible` conjunct is always
true on `Select`, which has no `materials` property, so the skip condition
reduces to `!mesh.visible`); add the (truthy) uuid of every mesh whose
world AABB is fully contained in the selection box. -/
def boxStep (r : Registry) (selectionBox3D : Box3) (acc : List String)
    (mid : Nat) : List String :=
  match storeGet r mid with
  | none => acc
  | some mesh =>
    if mesh.visible = false then acc
    else if containsBox selectionBox3D mesh.box then
      if mesh.entityUUID ≠ "" then
        (if mesh.entityUUID ∈ acc then acc else acc ++ [mesh.entityUUID])
      else acc
    else acc

/-- The `entitiesInBox` set built by the loop of `_performBoxSelection`
(part_001, lines 219–234): fold `boxStep` over `boundingBoxMeshList`. -/
def entitiesInBox (r : Registry) (selectionBox3D : Box3) : List String :=
  r.meshList.foldl (boxStep r selectionBox3D) []

/-- `Select._performBoxSelection(screenStart, screenEnd, isMultiSelect)`
(part_001, lines 215–244).  The screen-to-world unprojection
(`_get3DSelectionBox`, floating-point camera math) is abstracted as the
`selectionBox3D` argument; `none` models its `null` result for an
unsupported camera, on which the code returns without touching the
selection. -/
def performBoxSelection (s : Sys) (selectionBox3D : Option Box3)
    (isMultiSelect : Bool) : Sys :=
  match selectionBox3D with
  | none => s
  | some box =>
    let found := entitiesInBox s.reg box
    if isMultiSelect = false then
      let s1 := Select.deselectAll s
      found.foldl Select.select s1
    else
      found.foldl Select.select s

/-- `Select._updateHover(event)` (part_001, lines 303–323), with the awaited
raycast result abstracted as `hit` (the frontmost registered mesh's uuid,
if any).  Returns the state plus the (always empty) list of notifications
this handler emits.  If the hover is unchanged nothing happens; otherwise
the old hovered mesh is restyled default and the new one hovered, in each
case only when truthy and not selected. -/
def updateHover (s : Sys) (hit : Option String) : Sys × List EmitEvent :=
  let hoveredUUID := hit
  if s.hoveredEntityUUID = hoveredUUID then (s, [])
  else
    let s1 :=
      match s.hoveredEntityUUID with
      | some u =>
        if u ≠ "" ∧ u ∉ s.selectedEntities then
          { s with reg := setVisualState s.reg u false false }
        else s
      | none => s
    let s2 := { s1 with hoveredEntityUUID := hoveredUUID }
    let s3 :=
      match hoveredUUID with
      | some u =>
        if u ≠ "" ∧ u ∉ s2.selectedEntities then
          { s2 with reg := setVisualState s2.reg u false true }
        else s2
      | none => s2
    (s3, [])

/-- `Select._onKeyDown(event)` (part_001, lines 162–171): Escape deselects
everything and triggers with a fresh empty set; primary-modifier + "a"
selects all and triggers with a copy of the selection. -/
def onKeyDown (s : Sys) (key : String) (ctrlKey metaKey : Bool) :
    Sys × List EmitEvent :=
  if key = "Escape" then
    let s1 := Select.deselectAll s
    (s1, [⟨"select", Payload.copy []⟩])
  else if key = "a" ∧ (ctrlKey || metaKey) = true then
    let s1 := Select.selectAll s
    (s1, [⟨"select", Payload.copy s1.selectedEntities⟩])
  else (s, [])

/-- The continuation of `Select._onPointerUp` after the awaited hit-test in
the single-click branch (part_001, lines 141–156): the selection logic
reads the controller state *fresh at resolution time* (every access is a
`this.` access), applies the result, runs `_updateHover`, and triggers
exactly one "select" event with a fresh copy of the final set.  `hit` is
the awaited `_getIntersectedObject` result. -/
def clickResolve (s : Sys) (hit : Option String) (isMultiSelect : Bool)
    (hoverHit : Option String) : Sys × List EmitEvent :=
  let s1 :=
    match hit with
    | some clickedUUID =>
      if clickedUUID ≠ "" then performSingleClickSelection s clickedUUID isMultiSelect
      else if isMultiSelect = false then Select.deselectAll s
      else s
    | none =>
      if isMultiSelect = false then Select.deselectAll s
      else s
  let s2 := (updateHover s1 hoverHit).1
  (s2, [⟨"select", Payload.copy s2.selectedEntities⟩])

/-- `Select._onPointerUp(event)` (part_001, lines 120–157).  Ignores the
release unless the primary button is coming up during a tracked press;
otherwise captures the modifier and `wasDragging`, resets the
pending-interaction flags, resolves as a box selection or (via
`clickResolve`, after the awaited hit-test) as a click, updates hover and
triggers exactly one "select" notification carrying a copy of the final
selection set.  `hit`/`hoverHit` are the raycast results and
`selectionBox3D` the computed world selection box, all external inputs. -/
def onPointerUp (s : Sys) (button : Nat) (ctrlKey metaKey : Bool)
    (hit : Option String) (selectionBox3D : Option Box3)
    (hoverHit : Option String) : Sys × List EmitEvent :=
  if s.isMouseDown = false ∨ button ≠ 0 then (s, [])
  else
    let isMultiSelect := ctrlKey || metaKey
    let wasDragging := s.isDragging
    let s1 := { s with isMouseDown := false, isDragging := false }
    if wasDragging then
      let s2 := performBoxSelection s1 selectionBox3D isMultiSelect
      let s3 := (updateHover s2 hoverHit).1
      (s3, [⟨"select", Payload.copy s3.selectedEntities⟩])
    else
      clickResolve s1 hit isMultiSelect hoverHit

/-- Host-side registration step (`DxfViewer._setupAllBoundingBoxMeshes`
calls `boundingBoxManager.createBoundingBox`): only the registry component
of the joint state is touched. -/
def registerSys (s : Sys) (entity : Option Entity)
    (boundingBoxDef : Option BoundingBoxDef) : Sys :=
  { s with reg := (createBoundingBox s.reg entity boundingBoxDef).1 }

/-! ## Concrete states used by witnesses and counterexamples -/

/-- A freshly constructed controller over an empty registry. -/
def sysEmpty : Sys := ⟨emptyRegistry, [], none, false, false⟩

/-- A controller state whose selection is exactly `{A}`. -/
def sysA : Sys := ⟨emptyRegistry, ["A"], none, false, false⟩

/-- A controller state in the middle of a tracked primary-button press. -/
def sysDown : Sys := ⟨emptyRegistry, [], none, true, false⟩

def boxA : Box3 := ⟨⟨0, 0, 0⟩, ⟨1, 1, 0⟩⟩
def boxB : Box3 := ⟨⟨4, 0, 0⟩, ⟨8, 1, 0⟩⟩
def boxC : Box3 := ⟨⟨2, 0, 0⟩, ⟨3, 1, 0⟩⟩

/-- A selection box fully containing `boxA` and `boxC` and merely
intersecting `boxB`. -/
def selBox : Box3 := ⟨⟨-1, -1, -1⟩, ⟨5, 2, 1⟩⟩

/-- Registry with three visible volumes A, B, C. -/
def regABC : Registry :=
  ⟨3,
   [(0, ⟨"A", Material.default, true, boxA⟩),
    (1, ⟨"B", Material.default, true, boxB⟩),
    (2, ⟨"C", Material.default, true, boxC⟩)],
   [("A", 0), ("B", 1), ("C", 2)],
   [0, 1, 2],
   [0, 1, 2]⟩

def entE1 : Entity := ⟨"e1", boxA⟩
def bboxDefE1 : BoundingBoxDef := ⟨2, 2, 0, 0⟩

/-- Registry after registering `entE1` once on an empty manager. -/
def regE1 : Registry :=
  (createBoundingBox emptyRegistry (some entE1) (some bboxDefE1)).1

/-- Registry after registering the same entity `entE1` twice. -/
def regE1Twice : Registry :=
  (createBoundingBox regE1 (some entE1) (some bboxDefE1)).1

/-- Press-time state for the late-hit-test scenario: selection is exactly
`{A}` and the primary button is down. -/
def sysStale0 : Sys := ⟨emptyRegistry, ["A"], none, true, false⟩

/-- State after the synchronous prefix of `_onPointerUp` (part_001,
lines 127–128): the pending-interaction flags are reset before the click
branch awaits its hit-test. -/
def sysStale1 : Sys := { sysStale0 with isMouseDown := false, isDragging := false }

/-- State after an Escape keypress handled while that hit-test is still in
flight: the selection has been cleared and notified. -/
def sysStale2 : Sys := (onKeyDown sysStale1 "Escape" false false).1

/-! ## Frame and projection lemmas for the selection operations -/

lemma select_hovered (s : Sys) (u : String) :
    (Select.select s u).hoveredEntityUUID = s.hoveredEntityUUID := by
  unfold Select.select; split <;> rfl

lemma deselect_hovered (s : Sys) (u : String) :
    (Select.deselect s u).hoveredEntityUUID = s.hoveredEntityUUID := by
  unfold Select.deselect; split <;> rfl

lemma select_selected (s : Sys) (u : String) :
    (Select.select s u).selectedEntities =
      if u = "" ∨ u ∈ s.selectedEntities then s.selectedEntities
      else s.selectedEntities ++ [u] := by
  unfold Select.select; split <;> simp_all

lemma deselect_selected (s : Sys) (u : String) :
    (Select.deselect s u).selectedEntities =
      if u = "" ∨ u ∉ s.selectedEntities then s.selectedEntities
      else s.selectedEntities.erase u := by
  unfold Select.deselect; split <;> simp_all

lemma foldl_deselect_hovered (todo : List String) (s : Sys) :
    (todo.foldl Select.deselect s).hoveredEntityUUID = s.hoveredEntityUUID := by
  induction todo generalizing s with
  | nil => rfl
  | cons x xs ih => rw [List.foldl_cons, ih, deselect_hovered]

lemma foldl_select_hovered (todo : List String) (s : Sys) :
    (todo.foldl Select.select s).hoveredEntityUUID = s.hoveredEntityUUID := by
  induction todo generalizing s with
  | nil => rfl
  | cons x xs ih => rw [List.foldl_cons, ih, select_hovered]

lemma deselectAll_hovered (s : Sys) :
    (Select.deselectAll s).hoveredEntityUUID = s.hoveredEntityUUID :=
  foldl_deselect_hovered s.selectedEntities s

/-- Deselecting, one by one, every member of a list permutation-equivalent
to the current selection empties the selection (provided the empty string —
on which `deselect` refuses to act — is not among them). -/
lemma foldl_deselect_selected_nil (todo : List String) (s : Sys)
    (hne : "" ∉ todo) (hperm : s.selectedEntities.Perm todo) :
    (todo.foldl Select.deselect s).selectedEntities = [] := by
  induction todo generalizing s with
  | nil => exact hperm.eq_nil
  | cons x xs ih =>
    have hx : x ≠ "" := by rintro rfl; exact hne (List.mem_cons_self _ _)
    have hmem : x ∈ s.selectedEntities := hperm.mem_iff.mpr (List.mem_cons_self _ _)
    rw [List.foldl_cons]
    apply ih
    · exact fun h => hne (List.mem_cons_of_mem _ h)
    · rw [deselect_selected]
      rw [if_neg (by push_neg; exact ⟨hx, hmem⟩)]
      have := hperm.erase x
      rwa [List.erase_cons_head] at this

lemma deselectAll_selected (s : Sys) (h : "" ∉ s.selectedEntities) :
    (Select.deselectAll s).selectedEntities = [] :=
  foldl_deselect_selected_nil s.selectedEntities s h (List.Perm.refl _)

lemma eq_singleton_of_length_one_of_mem {l : List String} {a : String}
    (h : l.length = 1) (hm : a ∈ l) : l = [a] := by
  match l, h with
  | [x], _ => simp_all

/-- Characterisation of the no-modifier branch of
`_performSingleClickSelection`: the previous selection is snapshotted,
everything deselected, and the clicked uuid re-selected unless it was the
only selected entity. -/
lemma singleClick_noMulti_selected (s : Sys) (uuid : String)
    (h1 : uuid ≠ "") (h2 : "" ∉ s.selectedEntities) :
    (performSingleClickSelection s uuid false).selectedEntities =
      if s.selectedEntities = [uuid] then [] else [uuid] := by
  unfold performSingleClickSelection
  simp only [Bool.false_eq_true, if_false]
  by_cases hc : s.selectedEntities.length = 1 ∧ uuid ∈ s.selectedEntities
  · have hsing : s.selectedEntities = [uuid] :=
      eq_singleton_of_length_one_of_mem hc.1 hc.2
    rw [if_neg (by simp [hc]), if_pos hsing]
    exact deselectAll_selected s h2
  · have hne : s.selectedEntities ≠ [uuid] := by
      rintro h
      exact hc ⟨by rw [h]; rfl, by rw [h]; exact List.mem_singleton_self _⟩
    rw [if_pos hc, if_neg hne, select_selected,
        deselectAll_selected s h2]
    simp [h1]

lemma updateHover_selected (s : Sys) (hit : Option String) :
    ((updateHover s hit).1).selectedEntities = s.selectedEntities := by
  unfold updateHover
  by_cases h : s.hoveredEntityUUID = hit
  · rw [if_pos h]
  · rw [if_neg h]
    cases s.hoveredEntityUUID <;> cases hit <;> dsimp only <;> (repeat' split) <;> rfl

lemma boxStep_mem (r : Registry) (box : Box3) (acc : List String)
    (mid : Nat) (uuid : String) :
    uuid ∈ boxStep r box acc mid ↔
      uuid ∈ acc ∨
        ∃ m, storeGet r mid = some m ∧ m.visible = true ∧
          containsBox box m.box = true ∧ m.entityUUID = uuid ∧ uuid ≠ "" := by
  unfold boxStep
  cases hm : storeGet r mid with
  | none => simp
  | some mesh =>
    dsimp only
    by_cases hv : mesh.visible = false
    · rw [if_pos hv]
      constructor
      · exact Or.inl
      · rintro (h | ⟨m, hm2, hvis, -, -, -⟩)
        · exact h
        · cases hm2; rw [hv] at hvis; cases hvis
    · have hv' : mesh.visible = true := by
        revert hv; cases mesh.visible <;> simp
      rw [if_neg hv]
      by_cases hcont : containsBox box mesh.box = true
      · rw [if_pos hcont]
        by_cases hid : mesh.entityUUID ≠ ""
        · rw [if_pos hid]
          by_cases hacc : mesh.entityUUID ∈ acc
          · rw [if_pos hacc]
            constructor
            · exact Or.inl
            · rintro (h | ⟨m, hm2, -, -, heq, -⟩)
              · exact h
              · cases hm2; exact heq ▸ hacc
          · rw [if_neg hacc]
            simp only [List.mem_append, List.mem_singleton]
            constructor
            · rintro (h | h)
              · exact Or.inl h
              · exact Or.inr ⟨mesh, rfl, hv', hcont, h.symm, h ▸ hid⟩
            · rintro (h | ⟨m, hm2, -, -, heq, -⟩)
              · exact Or.inl h
              · cases hm2; exact Or.inr heq.symm
        · rw [if_neg hid]
          push_neg at hid
          constructor
          · exact Or.inl
          · rintro (h | ⟨m, hm2, -, -, heq, hne⟩)
            · exact h
            · cases hm2; exact absurd (heq ▸ hid) hne
      · rw [if_neg hcont]
        constructor
        · exact Or.inl
        · rintro (h | ⟨m, hm2, -, hc, -, -⟩)
          · exact h
          · cases hm2; exact absurd hc hcont

lemma foldl_boxStep_mem (r : Registry) (box : Box3) :
    ∀ (todo : List Nat) (acc : List String) (uuid : String),
      uuid ∈ todo.foldl (boxStep r box) acc ↔
        uuid ∈ acc ∨
          ∃ mid, mid ∈ todo ∧
            ∃ m, storeGet r mid = some m ∧ m.visible = true ∧
              containsBox box m.box = true ∧ m.entityUUID = uuid ∧ uuid ≠ "" := by
  intro todo
  induction todo with
  | nil => simp
  | cons x xs ih =>
    intro acc uuid
    rw [List.foldl_cons, ih, boxStep_mem]
    constructor
    · rintro ((h | h) | ⟨mid, hmid, hrest⟩)
      · exact Or.inl h
      · exact Or.inr ⟨x, List.mem_cons_self _ _, h⟩
      · exact Or.inr ⟨mid, List.mem_cons_of_mem _ hmid, hrest⟩
    · rintro (h | ⟨mid, hmid, hrest⟩)
      · exact Or.inl (Or.inl h)
      · rcases List.mem_cons.mp hmid with rfl | hmid2
        · exact Or.inl (Or.inr hrest)
        · exact Or.inr ⟨mid, hmid2, hrest⟩

lemma foldl_hovered_of_step {α : Type} (f : Sys → α → Sys)
    (hf : ∀ s a, (f s a).hoveredEntityUUID = s.hoveredEntityUUID) :
    ∀ (todo : List α) (s : Sys),
      (todo.foldl f s).hoveredEntityUUID = s.hoveredEntityUUID := by
  intro todo
  induction todo with
  | nil => intro s; rfl
  | cons x xs ih => intro s; rw [List.foldl_cons, ih, hf]

lemma selectAll_hovered (s : Sys) :
    (Select.selectAll s).hoveredEntityUUID = s.hoveredEntityUUID := by
  unfold Select.selectAll
  apply foldl_hovered_of_step
  intro s' mid
  cases storeGet s.reg mid with
  | none => rfl
  | some mesh =>
    dsimp only
    split
    · exact select_hovered s' mesh.entityUUID
    · rfl

lemma lookup_append_singleton {β : Type} (l : List (Nat × β)) (k : Nat) (v : β)
    (h : l.lookup k = none) : (l ++ [(k, v)]).lookup k = some v := by
  induction l with
  | nil => simp [List.lookup]
  | cons p t ih =>
    cases p with
    | mk a b =>
      rw [List.lookup_cons] at h
      rw [show ((a, b) :: t ++ [(k, v)]) = ((a, b) :: (t ++ [(k, v)])) from rfl,
          List.lookup_cons]
      by_cases hk : (k == a) = true
      · rw [hk] at h; cases h
      · rw [Bool.not_eq_true] at hk
        rw [hk] at h ⊢
        exact ih h

lemma setVisualState_unregistered (r : Registry) (u : String) (sel hov : Bool)
    (h : r.meshMap.lookup u = none) : setVisualState r u sel hov = r := by
  unfold setVisualState
  rw [h]


/-! ## Claim theorems -/

/-- C1: for every click resolution with the multi-select modifier not held
that hits an entity `uuid`: if the selection immediately before the click
was exactly the singleton containing `uuid`, the selection becomes empty;
otherwise the selection becomes exactly that singleton (so clicking A then
clicking B without a modifier yields `{B}`, never `{A, B}`).  The
hypotheses record the code's invariants that a raycast hit is a truthy
uuid and that the selection never contains the empty string. -/
theorem claim1_singleClick_replace (s : Sys) (uuid : String)
    (h1 : uuid ≠ "") (h2 : "" ∉ s.selectedEntities) :
    (performSingleClickSelection s uuid false).selectedEntities =
      if s.selectedEntities = [uuid] then [] else [uuid] :=
  singleClick_noMulti_selected s uuid h1 h2

/-- Witness for C1: clicking A while the selection is exactly `{A}` empties
the selection. -/
theorem claim1_witness :
    (performSingleClickSelection sysA "A" false).selectedEntities = [] :=
  (claim1_singleClick_replace sysA "A" (by decide) (by decide)).trans (by decide)

/-- C3 fails on the code: `select` of a non-empty, unselected uuid with no
registered volume is *not* a no-op — the uuid is added to the selection set
(only the restyle half is silently skipped). -/
theorem claim3_counterexample : Select.select sysEmpty "ghost" ≠ sysEmpty := by
  decide

/-- C3 (amended): `select(id)` is a no-op exactly when `id` is empty or
already selected; for every other id — registered or not — it appends the
id to the selection set and issues the Selected restyle, which is itself a
registry no-op when the id has no registered volume. -/
theorem claim3_select_characterization (s : Sys) (id : String) :
    (id = "" ∨ id ∈ s.selectedEntities → Select.select s id = s)
    ∧ (¬(id = "" ∨ id ∈ s.selectedEntities) →
        (Select.select s id).selectedEntities = s.selectedEntities ++ [id]
        ∧ (Select.select s id).reg = setVisualState s.reg id true false
        ∧ (s.reg.meshMap.lookup id = none → (Select.select s id).reg = s.reg)) := by
  constructor
  · intro h
    unfold Select.select
    rw [if_pos h]
  · intro h
    refine ⟨?_, ?_, ?_⟩
    · rw [select_selected, if_neg h]
    · unfold Select.select
      rw [if_neg h]
    · intro hreg
      unfold Select.select
      rw [if_neg h]
      exact setVisualState_unregistered s.reg id true false hreg

/-- Witness for C3 (amended): instantiated both at a no-op input (A already
selected) and at an unregistered uuid, where the selection set grows while
the registry is untouched. -/
theorem claim3_witness :
    Select.select sysA "A" = sysA
    ∧ (Select.select sysEmpty "ghost").selectedEntities =
        sysEmpty.selectedEntities ++ ["ghost"]
    ∧ (Select.select sysEmpty "ghost").reg = sysEmpty.reg := by
  refine ⟨(claim3_select_characterization sysA "A").1 (Or.inr (by decide)), ?_, ?_⟩
  · exact ((claim3_select_characterization sysEmpty "ghost").2 (by decide)).1
  · exact ((claim3_select_characterization sysEmpty "ghost").2 (by decide)).2.2 (by decide)

/-- C4 fails on the code when the id is already selected: `select` is then a
no-op but `deselect` removes the id, so the round trip does not restore the
prior selection `{A}`. -/
theorem claim4_counterexample :
    (Select.deselect (Select.select sysA "A") "A").selectedEntities ≠
      sysA.selectedEntities := by
  decide

/-- C4 (amended): `select(id)` then `deselect(id)` restores the selection
set exactly, provided `id` was not already selected before the `select`
call. -/
theorem claim4_roundtrip (s : Sys) (id : String)
    (h : id ∉ s.selectedEntities) :
    (Select.deselect (Select.select s id) id).selectedEntities =
      s.selectedEntities := by
  by_cases hid : id = ""
  · rw [show Select.select s id = s from by
        unfold Select.select; rw [if_pos (Or.inl hid)],
      deselect_selected, if_pos (Or.inl hid)]
  · rw [deselect_selected,
      if_neg (by
        rw [select_selected, if_neg (by push_neg; exact ⟨hid, h⟩)]
        push_neg
        exact ⟨hid, List.mem_append.mpr (Or.inr (List.mem_singleton_self id))⟩),
      select_selected, if_neg (by push_neg; exact ⟨hid, h⟩),
      List.erase_append_right _ h, List.erase_cons_head, List.append_nil]

/-- Witness for C4 (amended): selecting then deselecting a fresh id on an
empty selection restores the empty selection. -/
theorem claim4_witness :
    (Select.deselect (Select.select sysEmpty "B") "B").selectedEntities =
      sysEmpty.selectedEntities :=
  claim4_roundtrip sysEmpty "B" (by decide)

/-- C10: the selection operations `select`, `deselect`, `deselectAll` and
`selectAll` all leave the controller's hovered-entity id unchanged. -/
theorem claim10_ops_preserve_hover (s : Sys) (id : String) :
    (Select.select s id).hoveredEntityUUID = s.hoveredEntityUUID
    ∧ (Select.deselect s id).hoveredEntityUUID = s.hoveredEntityUUID
    ∧ (Select.deselectAll s).hoveredEntityUUID = s.hoveredEntityUUID
    ∧ (Select.selectAll s).hoveredEntityUUID = s.hoveredEntityUUID :=
  ⟨select_hovered s id, deselect_hovered s id, deselectAll_hovered s,
   selectAll_hovered s⟩

/-- C2: the box-selection candidate set contains exactly the uuids of
registered (enumerated in `boundingBoxMeshList`), currently visible meshes
whose world AABB is fully contained in the computed selection box; in the
concrete instance the box fully contains A and C and merely intersects B,
and the candidates are exactly `{A, C}`. -/
theorem claim2_box_candidates :
    (∀ (r : Registry) (box : Box3) (uuid : String),
        uuid ∈ entitiesInBox r box ↔
          ∃ mid, mid ∈ r.meshList ∧
            ∃ m, storeGet r mid = some m ∧ m.visible = true ∧
              containsBox box m.box = true ∧ m.entityUUID = uuid ∧ uuid ≠ "")
    ∧ entitiesInBox regABC selBox = ["A", "C"]
    ∧ containsBox selBox boxB = false
    ∧ intersectsBox selBox boxB = true := by
  refine ⟨?_, by decide, by decide, by decide⟩
  intro r box uuid
  unfold entitiesInBox
  rw [foldl_boxStep_mem]
  simp

/-- C5 fails on the code: immediately after a successful registration the
mesh's `visible` flag is `true` (the `THREE.Object3D` constructor default,
which `createBoundingBox` never overrides), not `false` as claimed. -/
theorem claim5_counterexample :
    (storeGet regE1 0).map (fun m => m.visible) = some true
    ∧ (storeGet regE1 0).map (fun m => m.visible) ≠ some false := by
  decide

/-- C5 (amended): immediately after a successful registration and before
any style application or selection operation, `isSelected(E)` is false and
the volume's style is Default — whose shared material renders invisible
(`materialVisible = false`) — but the mesh's own visibility flag is `true`;
it first becomes `false` when a style application hits the default branch. -/
theorem claim5_register_state (s : Sys) (e : Entity) (bd : BoundingBoxDef)
    (h1 : e.uuid ≠ "") (h2 : e.uuid ∉ s.selectedEntities)
    (h3 : s.reg.store.lookup s.reg.nextId = none) :
    Select.isSelected (registerSys s (some e) (some bd)) e.uuid = false
    ∧ storeGet (registerSys s (some e) (some bd)).reg s.reg.nextId =
        some ⟨e.uuid, Material.default, true, e.worldBox⟩
    ∧ Material.materialVisible Material.default = false := by
  refine ⟨?_, ?_, rfl⟩
  · unfold Select.isSelected registerSys
    simp [h2]
  · unfold registerSys createBoundingBox storeGet
    dsimp only
    rw [if_neg h1]
    dsimp only
    exact lookup_append_singleton _ _ _ h3

/-- Witness for C5 (amended): registering `entE1` on a fresh system. -/
theorem claim5_witness :
    Select.isSelected (registerSys sysEmpty (some entE1) (some bboxDefE1))
        entE1.uuid = false
    ∧ storeGet (registerSys sysEmpty (some entE1) (some bboxDefE1)).reg
        sysEmpty.reg.nextId =
        some ⟨entE1.uuid, Material.default, true, entE1.worldBox⟩
    ∧ Material.materialVisible Material.default = false :=
  claim5_register_state sysEmpty entE1 bboxDefE1 (by decide) (by decide) (by decide)

/-- C6: the code violates the one-volume-per-id invariant it is built
around — registering the same entity id twice leaves *two* meshes carrying
that id in `boundingBoxMeshList` and two meshes in the scene, while the
uuid→mesh map keeps only the newer one (so the orphaned mesh can never be
restyled or removed again, not even by `dispose`, which walks the map). -/
theorem claim6_duplicate_registration :
    (regE1Twice.meshList.filter (fun mid =>
        match storeGet regE1Twice mid with
        | some m => m.entityUUID == "e1"
        | none => false)).length = 2
    ∧ regE1Twice.scene.length = 2
    ∧ (regE1Twice.meshMap.filter (fun p => p.1 == "e1")).length = 1 := by
  decide

/-- C8: an Escape keypress empties the selection set and emits exactly one
notification carrying the empty set, whatever the previous selection was —
including an already-empty one.  The hypothesis is the code invariant that
the selection never contains the empty string. -/
theorem claim8_escape (s : Sys) (ctrlKey metaKey : Bool)
    (h : "" ∉ s.selectedEntities) :
    (onKeyDown s "Escape" ctrlKey metaKey).1.selectedEntities = []
    ∧ (onKeyDown s "Escape" ctrlKey metaKey).2 =
        [⟨"select", Payload.copy []⟩] := by
  unfold onKeyDown
  rw [if_pos rfl]
  exact ⟨deselectAll_selected s h, rfl⟩

/-- Witness for C8: Escape on an already-empty selection still empties it
and still emits the notification. -/
theorem claim8_witness :
    (onKeyDown sysEmpty "Escape" false false).1.selectedEntities = []
    ∧ (onKeyDown sysEmpty "Escape" false false).2 =
        [⟨"select", Payload.copy []⟩] :=
  claim8_escape sysEmpty false false (by decide)

/-- C7: a pointer-release of the primary button during a tracked press —
i.e. every release that resolves a click or a box selection — emits exactly
one "select" event whose payload is a fresh copy (`Payload.copy`, the
`new Set(...)` in the source) of the controller's final selection set, so
mutating the delivered snapshot cannot alter the controller's state; and a
hover update alone never emits any event. -/
theorem claim7_notification (s : Sys) (ctrlKey metaKey : Bool)
    (hit : Option String) (box3D : Option Box3) (hoverHit : Option String)
    (h : s.isMouseDown = true) :
    (onPointerUp s 0 ctrlKey metaKey hit box3D hoverHit).2 =
      [⟨"select", Payload.copy
          (onPointerUp s 0 ctrlKey metaKey hit box3D hoverHit).1.selectedEntities⟩]
    ∧ (∀ (s2 : Sys) (hh : Option String), (updateHover s2 hh).2 = []) := by
  constructor
  · unfold onPointerUp
    rw [if_neg (by simp [h])]
    cases hd : s.isDragging
    · rfl
    · rfl
  · intro s2 hh
    unfold updateHover
    by_cases hh2 : s2.hoveredEntityUUID = hh
    · rw [if_pos hh2]
    · rw [if_neg hh2]

/-- Witness for C7: a click release over entity A on a tracked press, and a
hover update, on concrete states. -/
theorem claim7_witness :
    (onPointerUp sysDown 0 false false (some "A") none none).2 =
      [⟨"select", Payload.copy
          (onPointerUp sysDown 0 false false (some "A") none none).1.selectedEntities⟩]
    ∧ (updateHover sysDown (some "B")).2 = [] :=
  ⟨(claim7_notification sysDown false false (some "A") none none (by decide)).1,
   (claim7_notification sysDown false false (some "A") none none (by decide)).2
     sysDown (some "B")⟩

/-- C9 fails on the code: there is no staleness token and no discard — a
hit-test result arriving after the interaction ended (here: after an Escape
cleared the selection while the click's hit-test was in flight) is applied
to the then-current state, changing the selection from `{}` to `{A}`
instead of leaving it untouched. -/
theorem claim9_counterexample :
    (clickResolve sysStale2 (some "A") false none).1.selectedEntities = ["A"]
    ∧ (clickResolve sysStale2 (some "A") false none).1.selectedEntities ≠
        sysStale2.selectedEntities := by
  decide

/-- C9 (amended): when an asynchronous hit-test result arrives after newer
input has changed the state, the controller reads the selection state fresh
at arrival time (every access in the continuation is a live `this.`
access) and *applies* the late result to that state rather than discarding
it: a no-modifier hit on `uuid` resolving after an interleaved Escape
always yields selection `{uuid}` — even when the press-time selection was
exactly `{uuid}`, which a stale capture would have toggled off. -/
theorem claim9_late_result_applied (s0 : Sys) (uuid : String)
    (h1 : uuid ≠ "") (h2 : "" ∉ s0.selectedEntities) :
    (clickResolve
        ((onKeyDown { s0 with isMouseDown := false, isDragging := false }
            "Escape" false false).1)
        (some uuid) false none).1.selectedEntities = [uuid] := by
  have hE : ((onKeyDown { s0 with isMouseDown := false, isDragging := false }
      "Escape" false false).1).selectedEntities = [] := by
    unfold onKeyDown
    rw [if_pos rfl]
    exact deselectAll_selected _ h2
  unfold clickResolve
  dsimp only
  rw [updateHover_selected, if_pos h1,
    singleClick_noMulti_selected _ uuid h1 (by rw [hE]; exact List.not_mem_nil _),
    hE, if_neg (by simp)]

/-- Witness for C9 (amended): the concrete interleaving starting from
`sysStale0` (selection exactly `{A}`, press tracked). -/
theorem claim9_witness :
    (clickResolve
        ((onKeyDown { sysStale0 with isMouseDown := false, isDragging := false }
            "Escape" false false).1)
        (some "A") false none).1.selectedEntities = ["A"] :=
  claim9_late_result_applied sysStale0 "A" (by decide) (by decide)
